import Mathlib

/-!
Verification of the UWB indoor-positioning core of this repository:
2D multilateration from four anchor ranges, triangle-inequality based
consistency checking, and per-axis scalar Kalman smoothing, as implemented
in the firmware sketches (`robust_multilateration_test.ino`,
`MaUWB-TAG_new.ino`, `MaUWB-TAG.ino`, the position-test sketches) and the
p5.js visualizer.  `float` arithmetic of the source is modelled by exact
arithmetic in a linear ordered field (instantiated at ℚ or ℝ).

First part: definitions (shallow embedding of the source).
Second part: theorems about the embedded code.
-/

namespace UWB

section Layout

variable {α : Type*} [LinearOrderedField α]

/-- Anchor x coordinates in cm, from `const float anchor_x[4] = (0, 0, 380, 380)`
(A0 top left, A1 left bottom, A2 right bottom, A3 top right). -/
def anchor_x : Fin 4 → α := ![0, 0, 380, 380]

/-- Anchor y coordinates in cm, from `const float anchor_y[4] = (0, 600, 600, 0)`. -/
def anchor_y : Fin 4 → α := ![0, 600, 600, 0]

end Layout

/-- Euclidean distance helper, from
`float calculateDistance(float x1, float y1, float x2, float y2) \x7b
  return sqrt((x2-x1)*(x2-x1) + (y2-y1)*(y2-y1)); \x7d`. -/
noncomputable def calculateDistance (x1 y1 x2 y2 : ℝ) : ℝ :=
  Real.sqrt ((x2 - x1) * (x2 - x1) + (y2 - y1) * (y2 - y1))

namespace Cpp

variable {α : Type*} [LinearOrderedField α]

/-- Embedding of `calculatePosition()` of the plain position-test sketch
(src/unnamed/part_002, C++ part, lines 496-625): requires all four
distances positive, solves the three hard-coded anchor triplets
(0,1,2), (0,1,3), (0,2,3) by Cramer's rule, discards a triplet when
`abs(den) > 0.000001` fails, and returns the unweighted average of the
valid solutions (`none` models the early `return`, i.e. no position
update). -/
def calculatePosition (dist_to_a0 dist_to_a1 dist_to_a2 dist_to_a3 : α) :
    Option (α × α) :=
  if dist_to_a0 ≤ 0 ∨ dist_to_a1 ≤ 0 ∨ dist_to_a2 ≤ 0 ∨ dist_to_a3 ≤ 0 then
    none
  else
    let A1 : α := 2 * (anchor_x 1 - anchor_x 0)
    let B1 : α := 2 * (anchor_y 1 - anchor_y 0)
    let C1 : α := dist_to_a0 * dist_to_a0 - dist_to_a1 * dist_to_a1 -
      anchor_x 0 * anchor_x 0 + anchor_x 1 * anchor_x 1 -
      anchor_y 0 * anchor_y 0 + anchor_y 1 * anchor_y 1
    let D1 : α := 2 * (anchor_x 2 - anchor_x 1)
    let E1 : α := 2 * (anchor_y 2 - anchor_y 1)
    let F1 : α := dist_to_a1 * dist_to_a1 - dist_to_a2 * dist_to_a2 -
      anchor_x 1 * anchor_x 1 + anchor_x 2 * anchor_x 2 -
      anchor_y 1 * anchor_y 1 + anchor_y 2 * anchor_y 2
    let den1 : α := A1 * E1 - B1 * D1
    let x1 : α := if |den1| > 1 / 1000000 then (C1 * E1 - F1 * B1) / den1 else 0
    let y1 : α := if |den1| > 1 / 1000000 then (A1 * F1 - C1 * D1) / den1 else 0
    let A2 : α := 2 * (anchor_x 1 - anchor_x 0)
    let B2 : α := 2 * (anchor_y 1 - anchor_y 0)
    let C2 : α := dist_to_a0 * dist_to_a0 - dist_to_a1 * dist_to_a1 -
      anchor_x 0 * anchor_x 0 + anchor_x 1 * anchor_x 1 -
      anchor_y 0 * anchor_y 0 + anchor_y 1 * anchor_y 1
    let D2 : α := 2 * (anchor_x 3 - anchor_x 1)
    let E2 : α := 2 * (anchor_y 3 - anchor_y 1)
    let F2 : α := dist_to_a1 * dist_to_a1 - dist_to_a3 * dist_to_a3 -
      anchor_x 1 * anchor_x 1 + anchor_x 3 * anchor_x 3 -
      anchor_y 1 * anchor_y 1 + anchor_y 3 * anchor_y 3
    let den2 : α := A2 * E2 - B2 * D2
    let x2 : α := if |den2| > 1 / 1000000 then (C2 * E2 - F2 * B2) / den2 else 0
    let y2 : α := if |den2| > 1 / 1000000 then (A2 * F2 - C2 * D2) / den2 else 0
    let A3 : α := 2 * (anchor_x 2 - anchor_x 0)
    let B3 : α := 2 * (anchor_y 2 - anchor_y 0)
    let C3 : α := dist_to_a0 * dist_to_a0 - dist_to_a2 * dist_to_a2 -
      anchor_x 0 * anchor_x 0 + anchor_x 2 * anchor_x 2 -
      anchor_y 0 * anchor_y 0 + anchor_y 2 * anchor_y 2
    let D3 : α := 2 * (anchor_x 3 - anchor_x 2)
    let E3 : α := 2 * (anchor_y 3 - anchor_y 2)
    let F3 : α := dist_to_a2 * dist_to_a2 - dist_to_a3 * dist_to_a3 -
      anchor_x 2 * anchor_x 2 + anchor_x 3 * anchor_x 3 -
      anchor_y 2 * anchor_y 2 + anchor_y 3 * anchor_y 3
    let den3 : α := A3 * E3 - B3 * D3
    let x3 : α := if |den3| > 1 / 1000000 then (C3 * E3 - F3 * B3) / den3 else 0
    let y3 : α := if |den3| > 1 / 1000000 then (A3 * F3 - C3 * D3) / den3 else 0
    let validSolutions : ℕ :=
      (if |den1| > 1 / 1000000 then 1 else 0) +
      (if |den2| > 1 / 1000000 then 1 else 0) +
      (if |den3| > 1 / 1000000 then 1 else 0)
    if validSolutions = 0 then
      none
    else
      let x : α := (if |den1| > 1 / 1000000 then x1 else 0) +
        (if |den2| > 1 / 1000000 then x2 else 0) +
        (if |den3| > 1 / 1000000 then x3 else 0)
      let y : α := (if |den1| > 1 / 1000000 then y1 else 0) +
        (if |den2| > 1 / 1000000 then y2 else 0) +
        (if |den3| > 1 / 1000000 then y3 else 0)
      some (x / (validSolutions : α), y / (validSolutions : α))

end Cpp

namespace Robust

section RobustDefs

variable {α : Type*} [LinearOrderedField α]

/-- Kalman filter state of robust_multilateration_test.ino: the global
variables `kalman_x`, `kalman_y`, `kalman_p_x`, `kalman_p_y`. -/
structure KalmanState (α : Type*) where
  kalman_x : α
  kalman_y : α
  kalman_p_x : α
  kalman_p_y : α
deriving DecidableEq

/-- Kalman update block of `calculatePosition()` (lines 300-323): the
prediction error grows by `kalman_q`, the gain is
`k = p / (p + kalman_r)`, the estimate moves by `k * (raw - estimate)`
and the error estimate becomes `(1 - k) * p`, on each axis independently. -/
def kalmanUpdate (kalman_q kalman_r : α) (s : KalmanState α) (rawX rawY : α) :
    KalmanState α :=
  let kalman_p_x := s.kalman_p_x + kalman_q
  let kalman_p_y := s.kalman_p_y + kalman_q
  let k_x := kalman_p_x / (kalman_p_x + kalman_r)
  let k_y := kalman_p_y / (kalman_p_y + kalman_r)
  { kalman_x := s.kalman_x + k_x * (rawX - s.kalman_x)
    kalman_y := s.kalman_y + k_y * (rawY - s.kalman_y)
    kalman_p_x := (1 - k_x) * kalman_p_x
    kalman_p_y := (1 - k_y) * kalman_p_y }

/-- Triangle inequality check, from `bool checkTriangleInequality(float a,
float b, float c)`: `(a + b > c) && (a + c > b) && (b + c > a)`
(Prop model of the returned bool). -/
def checkTriangleInequality (a b c : α) : Prop :=
  a + b > c ∧ a + c > b ∧ b + c > a

instance (a b c : α) : Decidable (checkTriangleInequality a b c) :=
  inferInstanceAs (Decidable (_ ∧ _ ∧ _))

/-- Weighted multilateration block of `calculatePosition()` (lines
166-298): solves the three hard-coded triplets (0,1,2), (0,1,3), (0,2,3)
from the pairwise linearized circle equations, each weighted by the
product of the qualities of its three anchors, discards a triplet unless
`abs(den) > 0.000001`, and returns the weighted average `rawX, rawY`
(`none` models the `return` when no triplet was valid). -/
def rawEstimate (d q : Fin 4 → α) : Option (α × α) :=
  let dist_to_a0_sq := d 0 * d 0
  let dist_to_a1_sq := d 1 * d 1
  let dist_to_a2_sq := d 2 * d 2
  let dist_to_a3_sq := d 3 * d 3
  let a0_sq := anchor_x 0 * anchor_x 0 + anchor_y 0 * anchor_y 0
  let a1_sq := anchor_x 1 * anchor_x 1 + anchor_y 1 * anchor_y 1
  let a2_sq := anchor_x 2 * anchor_x 2 + anchor_y 2 * anchor_y 2
  let a3_sq := anchor_x 3 * anchor_x 3 + anchor_y 3 * anchor_y 3
  let A_01 : α := 2 * (anchor_x 1 - anchor_x 0)
  let B_01 : α := 2 * (anchor_y 1 - anchor_y 0)
  let C_01 : α := dist_to_a0_sq - dist_to_a1_sq - a0_sq + a1_sq
  let A_12 : α := 2 * (anchor_x 2 - anchor_x 1)
  let B_12 : α := 2 * (anchor_y 2 - anchor_y 1)
  let C_12 : α := dist_to_a1_sq - dist_to_a2_sq - a1_sq + a2_sq
  let A_13 : α := 2 * (anchor_x 3 - anchor_x 1)
  let B_13 : α := 2 * (anchor_y 3 - anchor_y 1)
  let C_13 : α := dist_to_a1_sq - dist_to_a3_sq - a1_sq + a3_sq
  let A_02 : α := 2 * (anchor_x 2 - anchor_x 0)
  let B_02 : α := 2 * (anchor_y 2 - anchor_y 0)
  let C_02 : α := dist_to_a0_sq - dist_to_a2_sq - a0_sq + a2_sq
  let A_23 : α := 2 * (anchor_x 3 - anchor_x 2)
  let B_23 : α := 2 * (anchor_y 3 - anchor_y 2)
  let C_23 : α := dist_to_a2_sq - dist_to_a3_sq - a2_sq + a3_sq
  let weight1 := q 0 * q 1 * q 2
  let den1 := A_01 * B_12 - B_01 * A_12
  let x1 : α := if |den1| > 1 / 1000000 then (C_01 * B_12 - C_12 * B_01) / den1 else 0
  let y1 : α := if |den1| > 1 / 1000000 then (A_01 * C_12 - C_01 * A_12) / den1 else 0
  let weight2 := q 0 * q 1 * q 3
  let den2 := A_01 * B_13 - B_01 * A_13
  let x2 : α := if |den2| > 1 / 1000000 then (C_01 * B_13 - C_13 * B_01) / den2 else 0
  let y2 : α := if |den2| > 1 / 1000000 then (A_01 * C_13 - C_01 * A_13) / den2 else 0
  let weight3 := q 0 * q 2 * q 3
  let den3 := A_02 * B_23 - B_02 * A_23
  let x3 : α := if |den3| > 1 / 1000000 then (C_02 * B_23 - C_23 * B_02) / den3 else 0
  let y3 : α := if |den3| > 1 / 1000000 then (A_02 * C_23 - C_02 * A_23) / den3 else 0
  if ¬ |den1| > 1 / 1000000 ∧ ¬ |den2| > 1 / 1000000 ∧ ¬ |den3| > 1 / 1000000 then
    none
  else
    let totalWeight : α := (if |den1| > 1 / 1000000 then weight1 else 0) +
      (if |den2| > 1 / 1000000 then weight2 else 0) +
      (if |den3| > 1 / 1000000 then weight3 else 0)
    let rawX : α := (if |den1| > 1 / 1000000 then x1 * weight1 else 0) +
      (if |den2| > 1 / 1000000 then x2 * weight2 else 0) +
      (if |den3| > 1 / 1000000 then x3 * weight3 else 0)
    let rawY : α := (if |den1| > 1 / 1000000 then y1 * weight1 else 0) +
      (if |den2| > 1 / 1000000 then y2 * weight2 else 0) +
      (if |den3| > 1 / 1000000 then y3 * weight3 else 0)
    some (if totalWeight > 0 then rawX / totalWeight else rawX,
          if totalWeight > 0 then rawY / totalWeight else rawY)

/-- Spec-side solver for one anchor triplet (i, j, k), following the
specification's §4.1: for an anchor pair (p, q) the linearized equation is
`A·x + B·y = C` with `A = 2(x_q - x_p)`, `B = 2(y_q - y_p)`,
`C = d_p² - d_q² - x_p² + x_q² - y_p² + y_q²`; the 2×2 system from pairs
(i,j) and (j,k) is solved by Cramer's rule, the triplet is discarded when
`|den| ≤ 1e-6`, and its weight is the product of the three anchors'
qualities. -/
def specTripletCandidate (d q : Fin 4 → α) (i j k : Fin 4) :
    Option ((α × α) × α) :=
  let Ai : α := 2 * (anchor_x j - anchor_x i)
  let Bi : α := 2 * (anchor_y j - anchor_y i)
  let Ci : α := d i * d i - d j * d j - anchor_x i * anchor_x i +
    anchor_x j * anchor_x j - anchor_y i * anchor_y i + anchor_y j * anchor_y j
  let Aj : α := 2 * (anchor_x k - anchor_x j)
  let Bj : α := 2 * (anchor_y k - anchor_y j)
  let Cj : α := d j * d j - d k * d k - anchor_x j * anchor_x j +
    anchor_x k * anchor_x k - anchor_y j * anchor_y j + anchor_y k * anchor_y k
  let den := Ai * Bj - Bi * Aj
  if |den| ≤ 1 / 1000000 then none
  else some (((Ci * Bj - Cj * Bi) / den, (Ai * Cj - Ci * Aj) / den),
    q i * q j * q k)

/-- Spec-side list of valid candidates for the three triplets used by the
robust tester. -/
def specCandidates (d q : Fin 4 → α) : List ((α × α) × α) :=
  ([((0 : Fin 4), (1 : Fin 4), (2 : Fin 4)), (0, 1, 3), (0, 2, 3)]).filterMap
    fun t => specTripletCandidate d q t.1 t.2.1 t.2.2

/-- Spec-side weighted mean (§4.1 steps 3-4): `x = Σ(x_t·w_t)/Σw_t`,
`y = Σ(y_t·w_t)/Σw_t` over the valid candidates; fails when no triplet was
valid. -/
def specWeightedMean (cands : List ((α × α) × α)) : Option (α × α) :=
  if cands = [] then none
  else some (((cands.map fun c => c.1.1 * c.2).sum / (cands.map fun c => c.2).sum),
    ((cands.map fun c => c.1.2 * c.2).sum / (cands.map fun c => c.2).sum))

/-- Spec-side single-axis Kalman step (specification §4.3): predict
`errorCov += processNoise`; gain `k = errorCov / (errorCov +
measurementNoise)`; update `estimate += k * (raw - estimate)` and
`errorCov = (1 - k) * errorCov`.  Returns (estimate, errorCov). -/
def specKalmanAxis (processNoise measurementNoise raw est errorCov : α) : α × α :=
  let errorCov1 := errorCov + processNoise
  let k := errorCov1 / (errorCov1 + measurementNoise)
  (est + k * (raw - est), (1 - k) * errorCov1)

/-- Initial / reset Kalman state, from `resetKalmanFilter()`:
`kalman_x = 190`, `kalman_y = 300`, `kalman_p_x = kalman_p_y = 100`. -/
def initKalman : KalmanState α := ⟨190, 300, 100, 100⟩

/-- Repeated Kalman cycles feeding the constant raw measurement
`(mx, my)`, at the default noise constants `kalman_q = 0.01`,
`kalman_r = 1.0`. -/
def kalmanSeq (mx my : α) (s0 : KalmanState α) : ℕ → KalmanState α
  | 0 => s0
  | n + 1 => kalmanUpdate (1 / 100) 1 (kalmanSeq mx my s0 n) mx my

end RobustDefs

/-- Anchor-pair index list, in the iteration order of the nested loops of
`detectInconsistentMeasurements` (`i < j` over 0..3). -/
def pairList : List (Fin 4 × Fin 4) :=
  [(0, 1), (0, 2), (0, 3), (1, 2), (1, 3), (2, 3)]

/-- One loop body of `detectInconsistentMeasurements()`: if the triangle
inequality between the tag distances `d i`, `d j` and the anchor-to-anchor
distance fails, both qualities are halved
(`qualities[i] *= 0.5; qualities[j] *= 0.5`). -/
noncomputable def detectStep (d : Fin 4 → ℝ) (q : Fin 4 → ℝ)
    (p : Fin 4 × Fin 4) : Fin 4 → ℝ :=
  if checkTriangleInequality (d p.1) (d p.2)
      (calculateDistance (anchor_x p.1) (anchor_y p.1) (anchor_x p.2) (anchor_y p.2))
  then q
  else fun t => if t = p.1 ∨ t = p.2 then q t * (1 / 2) else q t

/-- Embedding of `detectInconsistentMeasurements()`
(robust_multilateration_test.ino lines 106-152): qualities restart at 1.0
each call and every anchor pair failing the triangle inequality has both
its qualities multiplied by 0.5. -/
noncomputable def detectInconsistentMeasurements (d : Fin 4 → ℝ) : Fin 4 → ℝ :=
  pairList.foldl (detectStep d) fun _ => 1

/-- Whether the pair `p` of anchors is flagged as violating the triangle
inequality for the distance vector `d`. -/
def violates (d : Fin 4 → ℝ) (p : Fin 4 × Fin 4) : Prop :=
  ¬ checkTriangleInequality (d p.1) (d p.2)
    (calculateDistance (anchor_x p.1) (anchor_y p.1) (anchor_x p.2) (anchor_y p.2))

noncomputable instance (d : Fin 4 → ℝ) (p : Fin 4 × Fin 4) :
    Decidable (violates d p) :=
  inferInstanceAs (Decidable (¬ _))

/-- Number of violated anchor pairs that involve anchor `t`. -/
noncomputable def violationCount (d : Fin 4 → ℝ) (t : Fin 4) : ℕ :=
  (pairList.filter fun p => decide (violates d p ∧ (t = p.1 ∨ t = p.2))).length

/-- Global mutable state of robust_multilateration_test.ino: the four
distance measurements, the four signal qualities, the Kalman state and the
published position. -/
structure State (α : Type*) where
  dist : Fin 4 → α
  quality : Fin 4 → α
  kalman : KalmanState α
  positionX : α
  positionY : α

/-- Distance update performed by `parseRangeData` before it calls
`calculatePosition()`. -/
def setDistances (s : State ℝ) (d : Fin 4 → ℝ) : State ℝ :=
  { s with dist := d }

/-- Embedding of the full `calculatePosition()` of
robust_multilateration_test.ino (lines 156-330): early `return` when a
distance is missing (state unchanged); otherwise the consistency checker
rewrites the qualities, and the weighted multilateration result - when one
exists - is fed to the Kalman filter and published. -/
noncomputable def calculatePosition (s : State ℝ) : State ℝ :=
  if s.dist 0 ≤ 0 ∨ s.dist 1 ≤ 0 ∨ s.dist 2 ≤ 0 ∨ s.dist 3 ≤ 0 then s
  else
    let q := detectInconsistentMeasurements s.dist
    match rawEstimate s.dist q with
    | none => { s with quality := q }
    | some (rawX, rawY) =>
      let ks := kalmanUpdate (1 / 100) 1 s.kalman rawX rawY
      { s with
        quality := q
        kalman := ks
        positionX := ks.kalman_x
        positionY := ks.kalman_y }

/-- A cycle's raw position estimate is invalid (`valid = false`): a
distance is missing/nonpositive, or no triplet produced a valid
solution. -/
def invalidCycle (s : State ℝ) : Prop :=
  (s.dist 0 ≤ 0 ∨ s.dist 1 ≤ 0 ∨ s.dist 2 ≤ 0 ∨ s.dist 3 ≤ 0) ∨
    rawEstimate s.dist (detectInconsistentMeasurements s.dist) = none

/-- Example distance vector (in cm) used to exercise the consistency
checker: it violates the triangle inequality exactly between anchors 0 and
3 (`100 + 380 ≤ 500`) and satisfies it for every other anchor pair. -/
def exampleDistances : Fin 4 → ℝ := ![100, 550, 650, 500]

end Robust

namespace MaUWB

section MaUWBDefs

variable {α : Type*} [LinearOrderedField α]

/-- Embedding of `MaUWB_TAG::calculatePositionFromTriplet(a1, a2, a3, x, y)`
(MaUWB-TAG_new.ino lines 386-409): 2×2 linear system from the anchor
pairs (a1,a2) and (a2,a3); `false` (here `none`) when
`abs(denominator) < 0.000001`. -/
def calculatePositionFromTriplet (anchorX anchorY distances : Fin 4 → α)
    (a1 a2 a3 : Fin 4) : Option (α × α) :=
  let A1 := 2 * (anchorX a2 - anchorX a1)
  let B1 := 2 * (anchorY a2 - anchorY a1)
  let Cc1 := distances a1 * distances a1 - distances a2 * distances a2 -
    anchorX a1 * anchorX a1 + anchorX a2 * anchorX a2 -
    anchorY a1 * anchorY a1 + anchorY a2 * anchorY a2
  let A2 := 2 * (anchorX a3 - anchorX a2)
  let B2 := 2 * (anchorY a3 - anchorY a2)
  let Cc2 := distances a2 * distances a2 - distances a3 * distances a3 -
    anchorX a2 * anchorX a2 + anchorX a3 * anchorX a3 -
    anchorY a2 * anchorY a2 + anchorY a3 * anchorY a3
  let denominator := A1 * B2 - A2 * B1
  if |denominator| < 1 / 1000000 then none
  else some ((Cc1 * B2 - Cc2 * B1) / denominator,
    (A1 * Cc2 - A2 * Cc1) / denominator)

/-- Anchor index list 0..3 (`numAnchors = 4`, the constructor default). -/
def indexList : List (Fin 4) := [0, 1, 2, 3]

/-- Triplet enumeration order of the nested loops `i < j < k` over the 4
anchors in `MaUWB_TAG::calculatePosition`. -/
def tripletList : List (Fin 4 × Fin 4 × Fin 4) :=
  [(0, 1, 2), (0, 1, 3), (0, 2, 3), (1, 2, 3)]

/-- Count of usable distances, from
`if (distances[i] > 0) validDistances++`. -/
def validDistanceCount (distances : Fin 4 → α) : ℕ :=
  (indexList.filter fun i => decide (0 < distances i)).length

/-- One iteration of the triplet loop of `MaUWB_TAG::calculatePosition`:
a triplet contributes its solution and its count only when all three of
its distances are positive and the linear solve succeeds. -/
def tripletStep (anchorX anchorY distances : Fin 4 → α) (acc : α × α × ℕ)
    (t : Fin 4 × Fin 4 × Fin 4) : α × α × ℕ :=
  if 0 < distances t.1 ∧ 0 < distances t.2.1 ∧ 0 < distances t.2.2 then
    match calculatePositionFromTriplet anchorX anchorY distances t.1 t.2.1 t.2.2 with
    | some (x, y) => (acc.1 + x, acc.2.1 + y, acc.2.2 + 1)
    | none => acc
  else acc

/-- Triplet-averaging stage of `MaUWB_TAG::calculatePosition`
(MaUWB-TAG_new.ino lines 345-366): sums the valid triplet solutions and
averages; `none` when no triplet produced a valid solution. -/
def rawAverage (anchorX anchorY distances : Fin 4 → α) : Option (α × α) :=
  let r := tripletList.foldl (tripletStep anchorX anchorY distances) (0, 0, 0)
  if 0 < r.2.2 then some (r.1 / (r.2.2 : α), r.2.1 / (r.2.2 : α)) else none

/-- Embedding of `MaUWB_TAG::calculatePosition()` (MaUWB-TAG_new.ino lines
325-383, with the default `numAnchors = 4`): needs at least 3 usable
distances, averages the valid triplet solutions, and publishes the result
only when it passes the boundary check
`rawX >= 0 && rawY >= 0 && rawX <= anchorX[2] && rawY <= anchorY[1]`
(`none` models "no position update"). -/
def calculatePosition (anchorX anchorY distances : Fin 4 → α) : Option (α × α) :=
  if validDistanceCount distances < 3 then none
  else
    match rawAverage anchorX anchorY distances with
    | none => none
    | some (rawX, rawY) =>
      if 0 ≤ rawX ∧ 0 ≤ rawY ∧ rawX ≤ anchorX 2 ∧ rawY ≤ anchorY 1 then
        some (rawX, rawY)
      else none

/-- Every triplet of usable anchors is numerically degenerate (its linear
solve is rejected). -/
def allTripletsDegenerate (anchorX anchorY distances : Fin 4 → α) : Prop :=
  ∀ t ∈ tripletList,
    (0 < distances t.1 ∧ 0 < distances t.2.1 ∧ 0 < distances t.2.2) →
      calculatePositionFromTriplet anchorX anchorY distances t.1 t.2.1 t.2.2 = none

end MaUWBDefs

/-- Distance vector with exactly two usable anchors (the other two report
the `<= 0` "no measurement" sentinel). -/
def twoUsable : Fin 4 → ℚ := ![100, 100, 0, 0]

end MaUWB

namespace Js

section JsDefs

variable {α : Type*} [LinearOrderedField α] [FloorRing α]

/-- Determinant of the triplet (0,1,2) of the p5.js `UWB.cal()`:
`den1 = A_01 * B_12 - B_01 * A_12`. -/
def den1 (ax ay : Fin 4 → α) : α :=
  (2 * (ax 1 - ax 0)) * (2 * (ay 2 - ay 1)) -
    (2 * (ay 1 - ay 0)) * (2 * (ax 2 - ax 1))

/-- Determinant of the triplet (0,1,3): `den2 = A_01 * B_13 - B_01 * A_13`. -/
def den2 (ax ay : Fin 4 → α) : α :=
  (2 * (ax 1 - ax 0)) * (2 * (ay 3 - ay 1)) -
    (2 * (ay 1 - ay 0)) * (2 * (ax 3 - ax 1))

/-- Determinant of the triplet (0,2,3): `den3 = A_02 * B_23 - B_02 * A_23`. -/
def den3 (ax ay : Fin 4 → α) : α :=
  (2 * (ax 2 - ax 0)) * (2 * (ay 3 - ay 2)) -
    (2 * (ay 2 - ay 0)) * (2 * (ax 3 - ax 2))

/-- Candidate of `UWB.cal()` from anchors 0,1,2: computed and counted only
when `Math.abs(den1) > 0.000001`. -/
def solution1 (ax ay d : Fin 4 → α) : Option (α × α) :=
  let A_01 := 2 * (ax 1 - ax 0)
  let B_01 := 2 * (ay 1 - ay 0)
  let A_12 := 2 * (ax 2 - ax 1)
  let B_12 := 2 * (ay 2 - ay 1)
  let a0_sq := ax 0 * ax 0 + ay 0 * ay 0
  let a1_sq := ax 1 * ax 1 + ay 1 * ay 1
  let a2_sq := ax 2 * ax 2 + ay 2 * ay 2
  let C_01 := d 0 * d 0 - d 1 * d 1 - a0_sq + a1_sq
  let C_12 := d 1 * d 1 - d 2 * d 2 - a1_sq + a2_sq
  if |den1 ax ay| > 1 / 1000000 then
    some ((C_01 * B_12 - C_12 * B_01) / den1 ax ay,
      (A_01 * C_12 - C_01 * A_12) / den1 ax ay)
  else none

/-- Candidate of `UWB.cal()` from anchors 0,1,3. -/
def solution2 (ax ay d : Fin 4 → α) : Option (α × α) :=
  let A_01 := 2 * (ax 1 - ax 0)
  let B_01 := 2 * (ay 1 - ay 0)
  let A_13 := 2 * (ax 3 - ax 1)
  let B_13 := 2 * (ay 3 - ay 1)
  let a0_sq := ax 0 * ax 0 + ay 0 * ay 0
  let a1_sq := ax 1 * ax 1 + ay 1 * ay 1
  let a3_sq := ax 3 * ax 3 + ay 3 * ay 3
  let C_01 := d 0 * d 0 - d 1 * d 1 - a0_sq + a1_sq
  let C_13 := d 1 * d 1 - d 3 * d 3 - a1_sq + a3_sq
  if |den2 ax ay| > 1 / 1000000 then
    some ((C_01 * B_13 - C_13 * B_01) / den2 ax ay,
      (A_01 * C_13 - C_01 * A_13) / den2 ax ay)
  else none

/-- Candidate of `UWB.cal()` from anchors 0,2,3. -/
def solution3 (ax ay d : Fin 4 → α) : Option (α × α) :=
  let A_02 := 2 * (ax 2 - ax 0)
  let B_02 := 2 * (ay 2 - ay 0)
  let A_23 := 2 * (ax 3 - ax 2)
  let B_23 := 2 * (ay 3 - ay 2)
  let a0_sq := ax 0 * ax 0 + ay 0 * ay 0
  let a2_sq := ax 2 * ax 2 + ay 2 * ay 2
  let a3_sq := ax 3 * ax 3 + ay 3 * ay 3
  let C_02 := d 0 * d 0 - d 2 * d 2 - a0_sq + a2_sq
  let C_23 := d 2 * d 2 - d 3 * d 3 - a2_sq + a3_sq
  if |den3 ax ay| > 1 / 1000000 then
    some ((C_02 * B_23 - C_23 * B_02) / den3 ax ay,
      (A_02 * C_23 - C_02 * A_23) / den3 ax ay)
  else none

/-- Averaging stage of `UWB.cal()` (src/unnamed/part_002 lines 140-193):
sum of the valid triplet solutions divided by their count; `none` when
`validSolutions === 0`. -/
def calAverage (ax ay d : Fin 4 → α) : Option (α × α) :=
  let s1 := solution1 ax ay d
  let s2 := solution2 ax ay d
  let s3 := solution3 ax ay d
  let validSolutions : ℕ := (if s1.isSome then 1 else 0) +
    (if s2.isSome then 1 else 0) + (if s3.isSome then 1 else 0)
  if validSolutions = 0 then none
  else
    some ((s1.elim 0 Prod.fst + s2.elim 0 Prod.fst + s3.elim 0 Prod.fst) /
        (validSolutions : α),
      (s1.elim 0 Prod.snd + s2.elim 0 Prod.snd + s3.elim 0 Prod.snd) /
        (validSolutions : α))

/-- Embedding of the p5.js `UWB.cal()` method (src/unnamed/part_002 lines
91-205): needs all four distances positive, averages the valid solutions
of the three hard-coded triplets, rejects the average when
`x < 0 || y < 0 || x > anchor_x[2] || y > anchor_y[1]`, and otherwise
stores the location `(Math.floor(x), Math.floor(y))` (`none` models the
early `return`, i.e. no location update). -/
def cal (ax ay d : Fin 4 → α) : Option (ℤ × ℤ) :=
  if d 0 ≤ 0 ∨ d 1 ≤ 0 ∨ d 2 ≤ 0 ∨ d 3 ≤ 0 then none
  else
    match calAverage ax ay d with
    | none => none
    | some (x, y) =>
      if x < 0 ∨ y < 0 ∨ x > ax 2 ∨ y > ay 1 then none
      else some (⌊x⌋, ⌊y⌋)

end JsDefs

/-- Distance vector (691, 691, 791, 791): these are the exact distances
from the point (-5, 300) to the default anchors with the common constant
387456 added to every squared distance, so every triplet's linearized
system is solved exactly by (-5, 300). -/
def jsExample : Fin 4 → ℚ := ![691, 691, 791, 791]

end Js

namespace Tag

/-- Stored position of the object-oriented `MaUWB_TAG` class
(MaUWB-TAG.ino): `currentX`, `currentY`. -/
structure MaUWB_TAG where
  currentX : ℚ
  currentY : ℚ

/-- Constructor state, from `currentX(0), currentY(0)` in the initializer
list of `MaUWB_TAG::MaUWB_TAG`. -/
def init : MaUWB_TAG := ⟨0, 0⟩

/-- Embedding of `MaUWB_TAG::hasValidPosition()` (MaUWB-TAG.ino lines
547-549): `return (currentX != 0 || currentY != 0)`. -/
def hasValidPosition (t : MaUWB_TAG) : Bool :=
  decide (t.currentX ≠ 0) || decide (t.currentY ≠ 0)

/-- The boundary rectangle of the default anchor layout (used by the
boundary checks of the position calculators): x in [0, anchor_x[2]],
y in [0, anchor_y[1]]. -/
def insideBoundary (x y : ℚ) : Prop :=
  0 ≤ x ∧ 0 ≤ y ∧ x ≤ anchor_x 2 ∧ y ≤ anchor_y 1

end Tag

end UWB

section Theorems

open UWB

set_option maxRecDepth 16000

set_option maxHeartbeats 2000000

@[simp] theorem anchor_x_0 {α : Type*} [LinearOrderedField α] :
    (anchor_x : Fin 4 → α) 0 = 0 := rfl

@[simp] theorem anchor_x_1 {α : Type*} [LinearOrderedField α] :
    (anchor_x : Fin 4 → α) 1 = 0 := rfl

@[simp] theorem anchor_x_2 {α : Type*} [LinearOrderedField α] :
    (anchor_x : Fin 4 → α) 2 = 380 := rfl

@[simp] theorem anchor_x_3 {α : Type*} [LinearOrderedField α] :
    (anchor_x : Fin 4 → α) 3 = 380 := rfl

@[simp] theorem anchor_y_0 {α : Type*} [LinearOrderedField α] :
    (anchor_y : Fin 4 → α) 0 = 0 := rfl

@[simp] theorem anchor_y_1 {α : Type*} [LinearOrderedField α] :
    (anchor_y : Fin 4 → α) 1 = 600 := rfl

@[simp] theorem anchor_y_2 {α : Type*} [LinearOrderedField α] :
    (anchor_y : Fin 4 → α) 2 = 600 := rfl

@[simp] theorem anchor_y_3 {α : Type*} [LinearOrderedField α] :
    (anchor_y : Fin 4 → α) 3 = 0 := rfl

/-- C1: for anchors at (0,0), (0,600), (380,600), (380,0) and a tag at the
interior point (190,300), feeding the estimator the exact Euclidean
distances from the tag to all 4 anchors yields a position estimate within
0.01 cm of (190,300), with a valid result (`some`). -/
theorem C1_exact_recovery :
    ∃ x y : ℝ,
      Cpp.calculatePosition
          (calculateDistance 190 300 (anchor_x 0) (anchor_y 0))
          (calculateDistance 190 300 (anchor_x 1) (anchor_y 1))
          (calculateDistance 190 300 (anchor_x 2) (anchor_y 2))
          (calculateDistance 190 300 (anchor_x 3) (anchor_y 3)) = some (x, y) ∧
        |x - 190| < 1 / 100 ∧ |y - 300| < 1 / 100 := by
  have h0 : calculateDistance (190 : ℝ) 300 (anchor_x 0) (anchor_y 0) =
      Real.sqrt 126100 := by norm_num [calculateDistance]
  have h1 : calculateDistance (190 : ℝ) 300 (anchor_x 1) (anchor_y 1) =
      Real.sqrt 126100 := by norm_num [calculateDistance]
  have h2 : calculateDistance (190 : ℝ) 300 (anchor_x 2) (anchor_y 2) =
      Real.sqrt 126100 := by norm_num [calculateDistance]
  have h3 : calculateDistance (190 : ℝ) 300 (anchor_x 3) (anchor_y 3) =
      Real.sqrt 126100 := by norm_num [calculateDistance]
  have hs : (0 : ℝ) < Real.sqrt 126100 := Real.sqrt_pos.2 (by norm_num)
  have hsq : Real.sqrt 126100 * Real.sqrt 126100 = 126100 :=
    Real.mul_self_sqrt (by norm_num)
  refine ⟨190, 300, ?_, by norm_num, by norm_num⟩
  rw [h0, h1, h2, h3]
  simp only [Cpp.calculatePosition]
  rw [if_neg (by push_neg; exact ⟨hs, hs, hs, hs⟩)]
  norm_num [hsq]

/-- C7: for every valid raw estimate, the Temporal Filter performs on each
axis independently exactly the scalar Kalman step: errorCov is first
increased by processNoise, then k = errorCov/(errorCov+measurementNoise),
then estimate += k*(raw − estimate), and finally errorCov becomes
(1−k)*errorCov; the code-level two-axis update block equals the spec-level
per-axis step on the X components and on the Y components. -/
theorem C7_kalman_step_per_axis (q r rawX rawY : ℚ) (s : Robust.KalmanState ℚ) :
    ((Robust.kalmanUpdate q r s rawX rawY).kalman_x,
        (Robust.kalmanUpdate q r s rawX rawY).kalman_p_x) =
      Robust.specKalmanAxis q r rawX s.kalman_x s.kalman_p_x ∧
      ((Robust.kalmanUpdate q r s rawX rawY).kalman_y,
          (Robust.kalmanUpdate q r s rawX rawY).kalman_p_y) =
        Robust.specKalmanAxis q r rawY s.kalman_y s.kalman_p_y :=
  ⟨rfl, rfl⟩

/-- One covariance step of the filter at the default noise constants:
positivity and the invariant `1/100 < p² + p/100` are preserved, and the
covariance strictly decreases. -/
theorem kalmanCovStep (p : ℚ) (hp : 0 < p) (hi : 1 / 100 < p ^ 2 + p / 100) :
    0 < (1 - (p + 1 / 100) / (p + 1 / 100 + 1)) * (p + 1 / 100) ∧
      1 / 100 < ((1 - (p + 1 / 100) / (p + 1 / 100 + 1)) * (p + 1 / 100)) ^ 2 +
        (1 - (p + 1 / 100) / (p + 1 / 100 + 1)) * (p + 1 / 100) / 100 ∧
      (1 - (p + 1 / 100) / (p + 1 / 100 + 1)) * (p + 1 / 100) < p := by
  have hD : (0 : ℚ) < p + 1 / 100 + 1 := by linarith
  have ha : (0 : ℚ) < p + 1 / 100 := by linarith
  have hexpr : (1 - (p + 1 / 100) / (p + 1 / 100 + 1)) * (p + 1 / 100) =
      (p + 1 / 100) / (p + 1 / 100 + 1) := by
    field_simp
    ring
  rw [hexpr]
  refine ⟨div_pos ha hD, ?_, ?_⟩
  · have key : 0 < 100 * (p + 1 / 100) ^ 2 - (p + 1 / 100) - 1 := by nlinarith
    have hrw : ((p + 1 / 100) / (p + 1 / 100 + 1)) ^ 2 +
        (p + 1 / 100) / (p + 1 / 100 + 1) / 100 - 1 / 100 =
        (100 * (p + 1 / 100) ^ 2 - (p + 1 / 100) - 1) /
          (100 * (p + 1 / 100 + 1) ^ 2) := by
      field_simp
      ring
    have h2 := div_pos key (show (0 : ℚ) < 100 * (p + 1 / 100 + 1) ^ 2 by positivity)
    rw [← hrw] at h2
    linarith
  · rw [div_lt_iff₀ hD]
    nlinarith

/-- One estimate step of the filter never moves the estimate further from
the constant measurement. -/
theorem kalmanErrStep (m e p : ℚ) (hp : 0 < p) :
    |e + (p + 1 / 100) / (p + 1 / 100 + 1) * (m - e) - m| ≤ |e - m| := by
  have hD : (0 : ℚ) < p + 1 / 100 + 1 := by linarith
  have h1 : e + (p + 1 / 100) / (p + 1 / 100 + 1) * (m - e) - m =
      (e - m) / (p + 1 / 100 + 1) := by
    field_simp
    ring
  rw [h1, abs_div, abs_of_pos hD]
  exact div_le_self (abs_nonneg _) (by linarith)

/-- Positivity and the decrease invariant hold along the whole covariance
sequence, on both axes. -/
theorem kalmanSeq_p_facts (mx my : ℚ) (n : ℕ) :
    (0 < (Robust.kalmanSeq mx my Robust.initKalman n).kalman_p_x ∧
        1 / 100 < (Robust.kalmanSeq mx my Robust.initKalman n).kalman_p_x ^ 2 +
          (Robust.kalmanSeq mx my Robust.initKalman n).kalman_p_x / 100) ∧
      0 < (Robust.kalmanSeq mx my Robust.initKalman n).kalman_p_y ∧
        1 / 100 < (Robust.kalmanSeq mx my Robust.initKalman n).kalman_p_y ^ 2 +
          (Robust.kalmanSeq mx my Robust.initKalman n).kalman_p_y / 100 := by
  induction n with
  | zero =>
    norm_num [Robust.kalmanSeq, Robust.initKalman]
  | succ n ih =>
    obtain ⟨⟨hx0, hx1⟩, hy0, hy1⟩ := ih
    have hx := kalmanCovStep _ hx0 hx1
    have hy := kalmanCovStep _ hy0 hy1
    exact ⟨⟨hx.1, hx.2.1⟩, hy.1, hy.2.1⟩

/-- C8 (amended): starting from the initial filter state (errorCov = 100,
processNoise = 0.01, measurementNoise = 1.0), feeding the same exact
measurement every cycle makes errorCov strictly decrease on every cycle on
both axes, never moves the estimate further from the measurement, and for
the measurement (0, 0) the estimate is within 0.01 cm of the measurement
after 45 cycles. -/
theorem C8_kalman_convergence :
    (∀ (mx my : ℚ) (n : ℕ),
        (Robust.kalmanSeq mx my Robust.initKalman (n + 1)).kalman_p_x <
            (Robust.kalmanSeq mx my Robust.initKalman n).kalman_p_x ∧
          (Robust.kalmanSeq mx my Robust.initKalman (n + 1)).kalman_p_y <
            (Robust.kalmanSeq mx my Robust.initKalman n).kalman_p_y) ∧
      (∀ (mx my : ℚ) (n : ℕ),
        |(Robust.kalmanSeq mx my Robust.initKalman (n + 1)).kalman_x - mx| ≤
            |(Robust.kalmanSeq mx my Robust.initKalman n).kalman_x - mx| ∧
          |(Robust.kalmanSeq mx my Robust.initKalman (n + 1)).kalman_y - my| ≤
            |(Robust.kalmanSeq mx my Robust.initKalman n).kalman_y - my|) ∧
      |(Robust.kalmanSeq (0 : ℚ) 0 Robust.initKalman 45).kalman_x - 0| < 1 / 100 ∧
        |(Robust.kalmanSeq (0 : ℚ) 0 Robust.initKalman 45).kalman_y - 0| < 1 / 100 := by
  refine ⟨fun mx my n => ?_, fun mx my n => ?_, ?_⟩
  · obtain ⟨⟨hx0, hx1⟩, hy0, hy1⟩ := kalmanSeq_p_facts mx my n
    exact ⟨(kalmanCovStep _ hx0 hx1).2.2, (kalmanCovStep _ hy0 hy1).2.2⟩
  · obtain ⟨⟨hx0, _⟩, hy0, _⟩ := kalmanSeq_p_facts mx my n
    exact ⟨kalmanErrStep mx _ _ hx0, kalmanErrStep my _ _ hy0⟩
  · have hx : (Robust.kalmanSeq (0 : ℚ) 0 Robust.initKalman 45).kalman_x =
        190000000000000000000000000000000000000000000000000000000000000000000000000000000000000000000 /
          44909912997805520577876948155565751091040772691199094940307312458509309016026879980405721298901 := by
      norm_num [Robust.kalmanSeq, Robust.kalmanUpdate, Robust.initKalman]
    have hy : (Robust.kalmanSeq (0 : ℚ) 0 Robust.initKalman 45).kalman_y =
        100000000000000000000000000000000000000000000000000000000000000000000000000000000000000000000 /
          14969970999268506859292316051855250363680257563733031646769104152836436338675626660135240432967 := by
      norm_num [Robust.kalmanSeq, Robust.kalmanUpdate, Robust.initKalman]
    rw [hx, hy, sub_zero, sub_zero, abs_div, abs_div]
    constructor
    · norm_num
    · norm_num

/-- C8 counterexample: after 20 cycles of the constant exact measurement
(0, 0) from the initial filter state, the X estimate still differs from
the measurement by more than 0.01 cm (and likewise after 30 cycles), so
convergence to within 0.01 cm is not reached within about 20 cycles. -/
theorem C8_not_within_20_cycles :
    1 / 100 < |(Robust.kalmanSeq (0 : ℚ) 0 Robust.initKalman 20).kalman_x - 0| ∧
      1 / 100 < |(Robust.kalmanSeq (0 : ℚ) 0 Robust.initKalman 30).kalman_x - 0| := by
  constructor
  · have h : 1 / 100 < (Robust.kalmanSeq (0 : ℚ) 0 Robust.initKalman 20).kalman_x - 0 := by
      norm_num [Robust.kalmanSeq, Robust.kalmanUpdate, Robust.initKalman]
    exact lt_of_lt_of_le h (le_abs_self _)
  · have h : 1 / 100 < (Robust.kalmanSeq (0 : ℚ) 0 Robust.initKalman 30).kalman_x - 0 := by
      norm_num [Robust.kalmanSeq, Robust.kalmanUpdate, Robust.initKalman]
    exact lt_of_lt_of_le h (le_abs_self _)

theorem sqrt_eval (a b : ℝ) (hb : 0 ≤ b) (h : b * b = a) : Real.sqrt a = b := by
  subst h
  exact Real.sqrt_mul_self hb

@[simp] theorem exampleDistances_0 : Robust.exampleDistances 0 = 100 := rfl

@[simp] theorem exampleDistances_1 : Robust.exampleDistances 1 = 550 := rfl

@[simp] theorem exampleDistances_2 : Robust.exampleDistances 2 = 650 := rfl

@[simp] theorem exampleDistances_3 : Robust.exampleDistances 3 = 500 := rfl

/-- Each quality produced by one pass of the consistency checker is the
starting quality times 0.5 for each violated pair the anchor is involved
in (proved for any starting quality function and any pair list). -/
theorem detectStep_foldl (d : Fin 4 → ℝ) (L : List (Fin 4 × Fin 4))
    (q : Fin 4 → ℝ) (t : Fin 4) :
    L.foldl (Robust.detectStep d) q t =
      q t * (1 / 2) ^
        (L.filter fun p =>
          decide (Robust.violates d p ∧ (t = p.1 ∨ t = p.2))).length := by
  induction L generalizing q with
  | nil => simp
  | cons p L ih =>
    rw [List.foldl_cons, ih]
    by_cases hv : Robust.violates d p
    · have hstep : Robust.detectStep d q p =
          fun u => if u = p.1 ∨ u = p.2 then q u * (1 / 2) else q u := by
        rw [Robust.detectStep, if_neg hv]
      by_cases ht : t = p.1 ∨ t = p.2
      · rw [List.filter_cons_of_pos (by simp only [decide_eq_true_eq]; exact ⟨hv, ht⟩),
          hstep]
        simp only [List.length_cons, pow_succ]
        rw [if_pos ht]
        ring
      · rw [List.filter_cons_of_neg
            (by simp only [decide_eq_true_eq]; exact fun h => ht h.2), hstep]
        simp only []
        rw [if_neg ht]
    · have hstep : Robust.detectStep d q p = q := by
        rw [Robust.detectStep, if_pos (not_not.1 hv)]
      rw [List.filter_cons_of_neg
          (by simp only [decide_eq_true_eq]; exact fun h => hv h.1), hstep]

/-- C6: the Consistency Checker starts every anchor's quality at 1.0 each
cycle and halves the quality of both anchors of every pair violating the
triangle inequality, compounding across pairs: after one pass the quality
equals 0.5 to the number of violated pairs the anchor is involved in; and
for a distance vector violating only the pair (0,3), the qualities are
(0.5, 1, 1, 0.5). -/
theorem C6_consistency_checker :
    (∀ (d : Fin 4 → ℝ) (t : Fin 4),
        Robust.detectInconsistentMeasurements d t =
          (1 / 2) ^ Robust.violationCount d t) ∧
      Robust.detectInconsistentMeasurements Robust.exampleDistances 0 = 1 / 2 ∧
        Robust.detectInconsistentMeasurements Robust.exampleDistances 1 = 1 ∧
        Robust.detectInconsistentMeasurements Robust.exampleDistances 2 = 1 ∧
        Robust.detectInconsistentMeasurements Robust.exampleDistances 3 = 1 / 2 := by
  have hgen : ∀ (d : Fin 4 → ℝ) (t : Fin 4),
      Robust.detectInconsistentMeasurements d t =
        (1 / 2) ^ Robust.violationCount d t := by
    intro d t
    rw [Robust.detectInconsistentMeasurements, detectStep_foldl, one_mul,
      Robust.violationCount]
  refine ⟨hgen, ?_⟩
  have e01 : calculateDistance (anchor_x 0) (anchor_y 0) (anchor_x 1) (anchor_y 1) =
      600 := by
    rw [calculateDistance]
    norm_num
    exact sqrt_eval _ _ (by norm_num) (by norm_num)
  have e02 : calculateDistance (anchor_x 0) (anchor_y 0) (anchor_x 2) (anchor_y 2) =
      Real.sqrt 504400 := by norm_num [calculateDistance]
  have e03 : calculateDistance (anchor_x 0) (anchor_y 0) (anchor_x 3) (anchor_y 3) =
      380 := by
    rw [calculateDistance]
    norm_num
    exact sqrt_eval _ _ (by norm_num) (by norm_num)
  have e12 : calculateDistance (anchor_x 1) (anchor_y 1) (anchor_x 2) (anchor_y 2) =
      380 := by
    rw [calculateDistance]
    norm_num
    exact sqrt_eval _ _ (by norm_num) (by norm_num)
  have e13 : calculateDistance (anchor_x 1) (anchor_y 1) (anchor_x 3) (anchor_y 3) =
      Real.sqrt 504400 := by norm_num [calculateDistance]
  have e23 : calculateDistance (anchor_x 2) (anchor_y 2) (anchor_x 3) (anchor_y 3) =
      600 := by
    rw [calculateDistance]
    norm_num
    exact sqrt_eval _ _ (by norm_num) (by norm_num)
  have hs550 : (550 : ℝ) < Real.sqrt 504400 :=
    (Real.lt_sqrt (by norm_num)).2 (by norm_num)
  have hs50 : (50 : ℝ) < Real.sqrt 504400 :=
    (Real.lt_sqrt (by norm_num)).2 (by norm_num)
  have hs750 : Real.sqrt 504400 < 750 :=
    (Real.sqrt_lt' (by norm_num)).2 (by norm_num)
  have hs1050 : Real.sqrt 504400 < 1050 :=
    (Real.sqrt_lt' (by norm_num)).2 (by norm_num)
  have hv01 : ¬ Robust.violates Robust.exampleDistances (0, 1) := by
    rw [Robust.violates, not_not]
    simp only [exampleDistances_0, exampleDistances_1]
    rw [e01]
    refine ⟨by norm_num, by norm_num, by norm_num⟩
  have hv02 : ¬ Robust.violates Robust.exampleDistances (0, 2) := by
    rw [Robust.violates, not_not]
    simp only [exampleDistances_0, exampleDistances_2]
    rw [e02]
    refine ⟨by linarith, by linarith, by linarith⟩
  have hv03 : Robust.violates Robust.exampleDistances (0, 3) := by
    rw [Robust.violates]
    simp only [exampleDistances_0, exampleDistances_3]
    rw [e03]
    intro h
    have := h.2.1
    norm_num at this
  have hv12 : ¬ Robust.violates Robust.exampleDistances (1, 2) := by
    rw [Robust.violates, not_not]
    simp only [exampleDistances_1, exampleDistances_2]
    rw [e12]
    refine ⟨by norm_num, by norm_num, by norm_num⟩
  have hv13 : ¬ Robust.violates Robust.exampleDistances (1, 3) := by
    rw [Robust.violates, not_not]
    simp only [exampleDistances_1, exampleDistances_3]
    rw [e13]
    refine ⟨by linarith, by linarith, by linarith⟩
  have hv23 : ¬ Robust.violates Robust.exampleDistances (2, 3) := by
    rw [Robust.violates, not_not]
    simp only [exampleDistances_2, exampleDistances_3]
    rw [e23]
    refine ⟨by norm_num, by norm_num, by norm_num⟩
  refine ⟨?_, ?_, ?_, ?_⟩ <;>
    · rw [hgen]
      simp [Robust.violationCount, Robust.pairList, hv01, hv02, hv03, hv12,
        hv13, hv23]

/-- C9: a cycle whose raw position estimate is invalid (valid = false)
leaves the Temporal Filter's state completely unchanged (no update step
and no covariance growth); in particular one valid cycle followed by one
invalid cycle leaves the filter state equal to its value after the first
cycle. -/
theorem C9_filter_hold_on_invalid :
    (∀ s : Robust.State ℝ, Robust.invalidCycle s →
        (Robust.calculatePosition s).kalman = s.kalman) ∧
      ∀ (s : Robust.State ℝ) (d1 d2 : Fin 4 → ℝ),
        Robust.invalidCycle
            (Robust.setDistances
              (Robust.calculatePosition (Robust.setDistances s d1)) d2) →
          (Robust.calculatePosition
              (Robust.setDistances
                (Robust.calculatePosition (Robust.setDistances s d1)) d2)).kalman =
            (Robust.calculatePosition (Robust.setDistances s d1)).kalman := by
  have main : ∀ s : Robust.State ℝ, Robust.invalidCycle s →
      (Robust.calculatePosition s).kalman = s.kalman := by
    intro s hs
    by_cases hd : s.dist 0 ≤ 0 ∨ s.dist 1 ≤ 0 ∨ s.dist 2 ≤ 0 ∨ s.dist 3 ≤ 0
    · simp only [Robust.calculatePosition]
      rw [if_pos hd]
    · rcases hs with hd' | hraw
      · exact absurd hd' hd
      · simp only [Robust.calculatePosition]
        rw [if_neg hd, hraw]
  refine ⟨main, fun s d1 d2 h => ?_⟩
  rw [main _ h]
  rfl

/-- C9 witness: a concrete invalid second cycle (all distances 0) after a
first cycle with all distances 355 leaves the Kalman state of the robust
tester untouched. -/
theorem C9_filter_hold_on_invalid_witness :
    (Robust.calculatePosition
        (Robust.setDistances
          (Robust.calculatePosition
            (Robust.setDistances
              ⟨fun _ => 0, fun _ => 1, ⟨190, 300, 100, 100⟩, 0, 0⟩
              fun _ => 355))
          fun _ => 0)).kalman =
      (Robust.calculatePosition
        (Robust.setDistances
          ⟨fun _ => 0, fun _ => 1, ⟨190, 300, 100, 100⟩, 0, 0⟩
          fun _ => 355)).kalman :=
  C9_filter_hold_on_invalid.2 _ _ _ (Or.inl (Or.inl (le_refl 0)))

@[simp] theorem twoUsable_0 : MaUWB.twoUsable 0 = 100 := rfl

@[simp] theorem twoUsable_1 : MaUWB.twoUsable 1 = 100 := rfl

@[simp] theorem twoUsable_2 : MaUWB.twoUsable 2 = 0 := rfl

@[simp] theorem twoUsable_3 : MaUWB.twoUsable 3 = 0 := rfl

/-- The triplet counter accumulated by the fold of
`MaUWB_TAG::calculatePosition` counts the usable, solvable triplets. -/
theorem tripletStep_count (ax ay d : Fin 4 → ℚ)
    (L : List (Fin 4 × Fin 4 × Fin 4)) (acc : ℚ × ℚ × ℕ) :
    (L.foldl (MaUWB.tripletStep ax ay d) acc).2.2 =
      acc.2.2 + L.countP fun t =>
        decide ((0 < d t.1 ∧ 0 < d t.2.1 ∧ 0 < d t.2.2) ∧
          (MaUWB.calculatePositionFromTriplet ax ay d t.1 t.2.1 t.2.2).isSome) := by
  induction L generalizing acc with
  | nil => simp
  | cons t L ih =>
    rw [List.foldl_cons, ih, List.countP_cons]
    by_cases hpos : 0 < d t.1 ∧ 0 < d t.2.1 ∧ 0 < d t.2.2
    · rcases hsol : MaUWB.calculatePositionFromTriplet ax ay d t.1 t.2.1 t.2.2
        with _ | ⟨x, y⟩
      · have hstep : MaUWB.tripletStep ax ay d acc t = acc := by
          rw [MaUWB.tripletStep, if_pos hpos, hsol]
        rw [hstep]
        simp [hpos, hsol]
      · have hstep : MaUWB.tripletStep ax ay d acc t =
            (acc.1 + x, acc.2.1 + y, acc.2.2 + 1) := by
          rw [MaUWB.tripletStep, if_pos hpos, hsol]
        rw [hstep]
        simp only [hpos, hsol, Option.isSome_some, and_true, decide_eq_true_eq,
          if_true]
        omega
    · have hstep : MaUWB.tripletStep ax ay d acc t = acc := by
        rw [MaUWB.tripletStep, if_neg hpos]
      rw [hstep]
      simp [hpos]

/-- The averaging stage fails exactly when every usable triplet is
degenerate. -/
theorem rawAverage_eq_none_iff (ax ay d : Fin 4 → ℚ) :
    MaUWB.rawAverage ax ay d = none ↔ MaUWB.allTripletsDegenerate ax ay d := by
  have hcount : (MaUWB.tripletList.foldl (MaUWB.tripletStep ax ay d)
        (0, 0, 0)).2.2 =
      MaUWB.tripletList.countP (fun t =>
        decide ((0 < d t.1 ∧ 0 < d t.2.1 ∧ 0 < d t.2.2) ∧
          (MaUWB.calculatePositionFromTriplet ax ay d t.1 t.2.1 t.2.2).isSome)) := by
    simpa using tripletStep_count ax ay d MaUWB.tripletList (0, 0, 0)
  constructor
  · intro h t ht hpos
    rcases hsol : MaUWB.calculatePositionFromTriplet ax ay d t.1 t.2.1 t.2.2
      with _ | s
    · rfl
    · exfalso
      have h1 : 0 < (MaUWB.tripletList.foldl (MaUWB.tripletStep ax ay d)
          (0, 0, 0)).2.2 := by
        rw [hcount]
        refine List.countP_pos_iff.2 ⟨t, ht, ?_⟩
        simp [hpos, hsol]
      rw [MaUWB.rawAverage] at h
      rw [if_pos h1] at h
      exact Option.some_ne_none _ h
  · intro h
    have h0 : (MaUWB.tripletList.foldl (MaUWB.tripletStep ax ay d)
        (0, 0, 0)).2.2 = 0 := by
      rw [hcount]
      refine List.countP_eq_zero.2 fun t ht => ?_
      simp only [decide_eq_true_eq, not_and]
      intro hpos hsome
      rw [h t ht hpos] at hsome
      simp at hsome
    rw [MaUWB.rawAverage]
    rw [if_neg (by rw [h0]; exact lt_irrefl 0)]

/-- C2: the estimator reports no valid position exactly when fewer than 3
usable (distance > 0) anchors existed, or every usable candidate triplet
was numerically degenerate, or the averaged result fell outside the
boundary rectangle; and for every input with only 2 usable anchors it
returns no position. -/
theorem C2_validity_conditions :
    (∀ ax ay d : Fin 4 → ℚ,
        MaUWB.calculatePosition ax ay d = none ↔
          MaUWB.validDistanceCount d < 3 ∨
            MaUWB.allTripletsDegenerate ax ay d ∨
            ∃ x y, MaUWB.rawAverage ax ay d = some (x, y) ∧
              (x < 0 ∨ y < 0 ∨ ax 2 < x ∨ ay 1 < y)) ∧
      ∀ ax ay d : Fin 4 → ℚ, MaUWB.validDistanceCount d = 2 →
        MaUWB.calculatePosition ax ay d = none := by
  have main : ∀ ax ay d : Fin 4 → ℚ,
      MaUWB.calculatePosition ax ay d = none ↔
        MaUWB.validDistanceCount d < 3 ∨
          MaUWB.allTripletsDegenerate ax ay d ∨
          ∃ x y, MaUWB.rawAverage ax ay d = some (x, y) ∧
            (x < 0 ∨ y < 0 ∨ ax 2 < x ∨ ay 1 < y) := by
    intro ax ay d
    rw [MaUWB.calculatePosition]
    by_cases hc : MaUWB.validDistanceCount d < 3
    · rw [if_pos hc]
      simp [hc]
    · rw [if_neg hc]
      rcases havg : MaUWB.rawAverage ax ay d with _ | ⟨x, y⟩
      · constructor
        · intro _
          exact Or.inr (Or.inl ((rawAverage_eq_none_iff ax ay d).1 havg))
        · intro _
          rfl
      · constructor
        · intro h
          change (if 0 ≤ x ∧ 0 ≤ y ∧ x ≤ ax 2 ∧ y ≤ ay 1 then some (x, y)
            else none) = none at h
          by_cases hb : 0 ≤ x ∧ 0 ≤ y ∧ x ≤ ax 2 ∧ y ≤ ay 1
          · rw [if_pos hb] at h
            exact absurd h (Option.some_ne_none _)
          · simp only [not_and_or, not_le] at hb
            exact Or.inr (Or.inr ⟨x, y, rfl, hb⟩)
        · rintro (h3 | hdeg | ⟨x', y', havg', hoob⟩)
          · exact absurd h3 hc
          · rw [(rawAverage_eq_none_iff ax ay d).2 hdeg] at havg
            cases havg
          · obtain ⟨rfl, rfl⟩ : x = x' ∧ y = y' := by simpa using havg'
            change (if 0 ≤ x ∧ 0 ≤ y ∧ x ≤ ax 2 ∧ y ≤ ay 1 then some (x, y)
              else none) = none
            rw [if_neg]
            simp only [not_and_or, not_le]
            exact hoob
  refine ⟨main, fun ax ay d h2 => ?_⟩
  exact (main ax ay d).2 (Or.inl (by omega))

/-- C2 witness: with exactly two usable anchors the estimator reports no
position. -/
theorem C2_validity_conditions_witness :
    MaUWB.calculatePosition (anchor_x : Fin 4 → ℚ) anchor_y MaUWB.twoUsable =
      none :=
  C2_validity_conditions.2 _ _ _
    (by norm_num [MaUWB.validDistanceCount, MaUWB.indexList])

@[simp] theorem jsExample_0 : Js.jsExample 0 = 691 := rfl

@[simp] theorem jsExample_1 : Js.jsExample 1 = 691 := rfl

@[simp] theorem jsExample_2 : Js.jsExample 2 = 791 := rfl

@[simp] theorem jsExample_3 : Js.jsExample 3 = 791 := rfl

/-- C3: a triplet whose 2×2 determinant satisfies |den| ≤ 1e-6 is
discarded: it is not solved and contributes neither a candidate nor a
count to the average; and with all anchors collinear (all on one
horizontal line) every triplet is degenerate and the estimator returns no
position. -/
theorem C3_degenerate_triplet_rejection :
    (∀ ax ay d : Fin 4 → ℚ,
        (|Js.den1 ax ay| ≤ 1 / 1000000 → Js.solution1 ax ay d = none) ∧
          (|Js.den2 ax ay| ≤ 1 / 1000000 → Js.solution2 ax ay d = none) ∧
          (|Js.den3 ax ay| ≤ 1 / 1000000 → Js.solution3 ax ay d = none)) ∧
      ∀ (ax : Fin 4 → ℚ) (c : ℚ) (d : Fin 4 → ℚ),
        Js.cal ax (fun _ => c) d = none := by
  constructor
  · intro ax ay d
    refine ⟨fun h => ?_, fun h => ?_, fun h => ?_⟩
    · rw [Js.solution1, if_neg (not_lt.2 h)]
    · rw [Js.solution2, if_neg (not_lt.2 h)]
    · rw [Js.solution3, if_neg (not_lt.2 h)]
  · intro ax c d
    have hs1 : Js.solution1 ax (fun _ => c) d = none := by
      rw [Js.solution1, if_neg]
      simp [Js.den1]
    have hs2 : Js.solution2 ax (fun _ => c) d = none := by
      rw [Js.solution2, if_neg]
      simp [Js.den2]
    have hs3 : Js.solution3 ax (fun _ => c) d = none := by
      rw [Js.solution3, if_neg]
      simp [Js.den3]
    have havg : Js.calAverage ax (fun _ => c) d = none := by
      rw [Js.calAverage, hs1, hs2, hs3]
      simp
    rw [Js.cal]
    by_cases hd : d 0 ≤ 0 ∨ d 1 ≤ 0 ∨ d 2 ≤ 0 ∨ d 3 ≤ 0
    · rw [if_pos hd]
    · rw [if_neg hd, havg]

/-- C3 witness: with the four anchors all on the x-axis each triplet's
determinant is 0, so |den| ≤ 1e-6 discards every triplet and the
estimator reports no position. -/
theorem C3_degenerate_triplet_rejection_witness :
    Js.solution1 (fun _ => (0 : ℚ)) (fun _ => 0) (fun _ => 100) = none ∧
      Js.cal (fun _ => (0 : ℚ)) (fun _ => 0) (fun _ => 100) = none :=
  ⟨(C3_degenerate_triplet_rejection.1 _ _ _).1 (by norm_num [Js.den1]),
    C3_degenerate_triplet_rejection.2 _ 0 _⟩

/-- C5: an averaged result falling outside the boundary rectangle (x < 0,
y < 0, x above the maximum anchor x coordinate, or y above the maximum
anchor y coordinate, the maxima being attained at anchor_x[2] and
anchor_y[1] in the default layout) is rejected with no location update,
even though the underlying linear solves succeeded; in particular a
computed result of (-5, 300) is rejected. -/
theorem C5_boundary_rejection :
    (∀ (ax ay d : Fin 4 → ℚ) (x y : ℚ),
        (∀ i, ax i ≤ ax 2) → (∀ i, ay i ≤ ay 1) →
          Js.calAverage ax ay d = some (x, y) →
          (x < 0 ∨ y < 0 ∨ ax 2 < x ∨ ay 1 < y) →
          Js.cal ax ay d = none) ∧
      Js.calAverage (anchor_x : Fin 4 → ℚ) anchor_y Js.jsExample =
          some (-5, 300) ∧
        Js.cal (anchor_x : Fin 4 → ℚ) anchor_y Js.jsExample = none := by
  have main : ∀ (ax ay d : Fin 4 → ℚ) (x y : ℚ),
      Js.calAverage ax ay d = some (x, y) →
      (x < 0 ∨ y < 0 ∨ ax 2 < x ∨ ay 1 < y) → Js.cal ax ay d = none := by
    intro ax ay d x y havg hoob
    rw [Js.cal]
    by_cases hd : d 0 ≤ 0 ∨ d 1 ≤ 0 ∨ d 2 ≤ 0 ∨ d 3 ≤ 0
    · rw [if_pos hd]
    · rw [if_neg hd, havg]
      change (if x < 0 ∨ y < 0 ∨ x > ax 2 ∨ y > ay 1 then none else _) = none
      rw [if_pos hoob]
  have havg : Js.calAverage (anchor_x : Fin 4 → ℚ) anchor_y Js.jsExample =
      some (-5, 300) := by
    norm_num [Js.calAverage, Js.solution1, Js.solution2, Js.solution3,
      Js.den1, Js.den2, Js.den3]
  exact ⟨fun ax ay d x y _ _ h ho => main ax ay d x y h ho, havg,
    main _ _ _ _ _ havg (by norm_num)⟩

/-- C5 witness: the general boundary-rejection theorem applied to the
default layout and the concrete distance vector whose exact average is
(-5, 300). -/
theorem C5_boundary_rejection_witness :
    Js.cal (anchor_x : Fin 4 → ℚ) anchor_y Js.jsExample = none :=
  C5_boundary_rejection.1 _ _ _ (-5) 300
    (by intro i; fin_cases i <;> norm_num [anchor_x])
    (by intro i; fin_cases i <;> norm_num [anchor_y])
    C5_boundary_rejection.2.1
    (by norm_num)

/-- C10: `hasValidPosition()` returns true iff the stored position
differs from the exact origin; consequently it is false in the
constructor state (before any successful position calculation), and false
for a tag whose computed position is exactly (0, 0), even though (0, 0)
lies inside the boundary rectangle. -/
theorem C10_hasValidPosition_iff :
    (∀ t : Tag.MaUWB_TAG,
        Tag.hasValidPosition t = true ↔ (t.currentX ≠ 0 ∨ t.currentY ≠ 0)) ∧
      Tag.hasValidPosition Tag.init = false ∧
      Tag.hasValidPosition ⟨0, 0⟩ = false ∧ Tag.insideBoundary 0 0 := by
  refine ⟨fun t => ?_, ?_, ?_, ?_⟩
  · rw [Tag.hasValidPosition]
    simp
  · simp [Tag.hasValidPosition, Tag.init]
  · simp [Tag.hasValidPosition]
  · exact ⟨le_refl 0, le_refl 0, by norm_num [Tag.insideBoundary], by norm_num⟩

/-- C4: with positive qualities, the weighted multilateration block
returns exactly the specification's weighted mean x = Σ(x_t·w_t)/Σw_t,
y = Σ(y_t·w_t)/Σw_t over the valid (non-degenerate) triplet candidates,
the weight of each triplet being the product of the quality values of its
three anchors (with this fixed layout every triplet is non-degenerate, so
at least one non-degenerate triplet always exists). -/
theorem C4_weighted_mean (d q : Fin 4 → ℚ) (hq : ∀ i, 0 < q i) :
    Robust.rawEstimate d q =
      Robust.specWeightedMean (Robust.specCandidates d q) := by
  have h0 := hq 0
  have h1 := hq 1
  have h2 := hq 2
  have h3 := hq 3
  have hw : (0 : ℚ) < q 0 * q 1 * q 2 + q 0 * q 1 * q 3 + q 0 * q 2 * q 3 :=
    add_pos (add_pos (mul_pos (mul_pos h0 h1) h2) (mul_pos (mul_pos h0 h1) h3))
      (mul_pos (mul_pos h0 h2) h3)
  norm_num [Robust.rawEstimate, Robust.specCandidates,
    Robust.specTripletCandidate, Robust.specWeightedMean, anchor_x, anchor_y,
    List.filterMap_cons, List.filterMap_nil, hw]
  refine ⟨?_, ?_, ?_⟩
  · simp
  · ring
  · ring

/-- C4 witness: concrete evaluation with all qualities 1 and equal
distances; the block and the spec weighted mean agree (both yield the
center (190, 300)). -/
theorem C4_weighted_mean_witness :
    Robust.rawEstimate (fun _ => (355 : ℚ)) (fun _ => 1) =
        Robust.specWeightedMean
          (Robust.specCandidates (fun _ => (355 : ℚ)) (fun _ => 1)) ∧
      Robust.rawEstimate (fun _ => (355 : ℚ)) (fun _ => 1) = some (190, 300) :=
  ⟨C4_weighted_mean _ _ fun i => by norm_num,
    by norm_num [Robust.rawEstimate]⟩

end Theorems
